import Mathlib

/-!
# Bengaluru house-price repository: verification of the specification claims

A shallow embedding of the parts of the `Bengaluru_House` repository that the
frozen claims are about, together with theorems settling each claim.

Conventions used throughout the embedding:
* Python `float` values are modelled as `Rat`; all claims compare them only
  through the order relation, where finite binary floats and rationals agree.
* Python `None` and JSON `null` are modelled with `Option` or with the
  `PVal.vnull` constructor of the dynamic-value type `PVal`.
* A fallible Python operation is modelled as an `Option`/`Except` result.
* pandas data frames are modelled as lists of per-row records.
-/

namespace Bengaluru

/-- Truthiness of an optional string, as Python evaluates `dict.get(key)` in a
boolean context: absent (`None`) and the empty string are falsy. -/
def strTruthy : Option String → Bool
  | none => false
  | some s => s ≠ ""

/-! String primitives are re-implemented on `List Char` (rather than through
core's position-based `String` functions) so that concrete witnesses evaluate
by kernel reduction. -/

/-- Python `str.strip()` (and `pandas.str.strip`): drop leading and trailing
whitespace. -/
def trimWs (cs : List Char) : List Char :=
  ((cs.dropWhile Char.isWhitespace).reverse.dropWhile Char.isWhitespace).reverse

/-- Python `s.strip()` on a string value. -/
def pyStrip (s : String) : String :=
  ⟨trimWs s.toList⟩

/-- Python `str.split()` with no separator: the maximal runs of
non-whitespace characters, in order. -/
def splitWs (cs : List Char) : List (List Char) :=
  (cs.foldr
    (fun c acc =>
      if c.isWhitespace then [] :: acc
      else
        match acc with
        | [] => [[c]]
        | t :: ts => (c :: t) :: ts)
    []).filter (fun t => t ≠ [])

/-- Python `str.split(sep)` for a one-character separator: the chunks between
occurrences of `sep`, keeping empty chunks (so `"".split("-") = [""]`). -/
def splitOnChar (sep : Char) (cs : List Char) : List (List Char) :=
  cs.foldr
    (fun c acc =>
      if c = sep then [] :: acc
      else
        match acc with
        | [] => [[c]]
        | t :: ts => (c :: t) :: ts)
    [[]]

/-- ASCII lowering of one character; Python `str.lower()` restricted to ASCII
(every location name the repository manipulates is ASCII). -/
def charLower (c : Char) : Char :=
  if 'A' ≤ c ∧ c ≤ 'Z' then Char.ofNat (c.toNat + 32) else c

/-- Python `s.lower()` on a string value. -/
def strLower (s : String) : String :=
  ⟨s.toList.map charLower⟩

/-- Numeric value of a list of ASCII digit characters, most significant first. -/
def digitsVal (cs : List Char) : Nat :=
  cs.foldl (fun a c => a * 10 + (c.toNat - '0'.toNat)) 0

/-! The library's `Rat.add`/`sub`/`mul`/`inv` are `@[irreducible]`, so a
concrete witness could not be evaluated through them by the kernel.  The
embedding therefore computes with the following equivalent (and provably
equal) kernel-evaluable operations. -/

/-- Kernel-evaluable rational addition. -/
def rAdd (a b : Rat) : Rat :=
  mkRat (a.num * b.den + b.num * a.den) (a.den * b.den)

/-- Kernel-evaluable rational subtraction. -/
def rSub (a b : Rat) : Rat :=
  mkRat (a.num * b.den - b.num * a.den) (a.den * b.den)

/-- Kernel-evaluable rational multiplication. -/
def rMul (a b : Rat) : Rat :=
  mkRat (a.num * b.num) (a.den * b.den)

/-- Kernel-evaluable rational division. -/
def rDiv (a b : Rat) : Rat :=
  rMul a (Rat.divInt (b.den : Int) b.num)

theorem rAdd_eq (a b : Rat) : rAdd a b = a + b :=
  (Rat.add_def' a b).symm

theorem rSub_eq (a b : Rat) : rSub a b = a - b :=
  (Rat.sub_def' a b).symm

theorem rMul_eq (a b : Rat) : rMul a b = a * b := by
  rw [Rat.mul_def, Rat.normalize_eq_mkRat]
  rfl

theorem rDiv_eq (a b : Rat) : rDiv a b = a / b := by
  rw [rDiv, rMul_eq, Rat.div_def, Rat.inv_def]

/-- Python `int(s)` applied to a string: optional surrounding whitespace, an
optional sign, then a non-empty run of decimal digits.  Underscore digit
separators are not modelled (no claim exercises them). -/
def pyParseInt (s : String) : Option Int :=
  let cs := trimWs s.toList
  let (sg, cs) : Int × List Char :=
    match cs with
    | '+' :: r => (1, r)
    | '-' :: r => (-1, r)
    | r => (1, r)
  if cs.isEmpty then none
  else if cs.all Char.isDigit then some (sg * (digitsVal cs : Int))
  else none

/-- Python `float(s)` applied to a string, restricted to finite decimal
literals: optional surrounding whitespace, optional sign, digits with an
optional fractional part and an optional decimal exponent.  The special
spellings `inf`/`nan` and underscore separators are not modelled; every claim
that reaches this parser only compares the parsed magnitude or tests parse
success. -/
def pyParseFloat (s : String) : Option Rat :=
  let cs := trimWs s.toList
  let (sg, cs) : Int × List Char :=
    match cs with
    | '+' :: r => (1, r)
    | '-' :: r => (-1, r)
    | r => (1, r)
  let ip := cs.takeWhile Char.isDigit
  let cs := cs.drop ip.length
  let (fp, cs) : List Char × List Char :=
    match cs with
    | '.' :: r => (r.takeWhile Char.isDigit, r.drop (r.takeWhile Char.isDigit).length)
    | r => ([], r)
  if ip.isEmpty && fp.isEmpty then none
  else
    let mantissa : Int := sg * (digitsVal (ip ++ fp) : Int)
    match cs with
    | [] => some (mkRat mantissa (10 ^ fp.length))
    | e :: r =>
      if e = 'e' ∨ e = 'E' then
        let (es, r) : Int × List Char :=
          match r with
          | '+' :: t => (1, t)
          | '-' :: t => (-1, t)
          | t => (1, t)
        let ed := r.takeWhile Char.isDigit
        let rest := r.drop ed.length
        if ed.isEmpty ∨ ¬ rest.isEmpty then none
        else
          let ex : Int := es * (digitsVal ed : Int) - (fp.length : Int)
          some (if 0 ≤ ex then ((mantissa * 10 ^ ex.toNat : Int) : Rat)
            else mkRat mantissa (10 ^ (-ex).toNat))
      else none

/-- Python `int(f)` applied to a float: truncation toward zero. -/
def pyTrunc (q : Rat) : Int :=
  q.num.tdiv (q.den : Int)

/-! ## Dynamic Python values

Values stored in the JSON-backed house records and flowing through the chat
handler's `detected_fields` dictionary can be strings, numbers or `None`. -/

/-- A dynamic Python value as it occurs in the repository's JSON records:
`None`, a string, a float, or an int. -/
inductive PVal where
  | vnull
  | vstr (s : String)
  | vnum (q : Rat)
  | vint (n : Int)
deriving DecidableEq, Repr

/-- Python `float(v)` on a dynamic value: floats pass through, ints are widened,
strings are parsed, `None` raises (`none`). -/
def pvToFloat : PVal → Option Rat
  | .vnull => none
  | .vstr s => pyParseFloat s
  | .vnum q => some q
  | .vint n => some (n : Rat)

/-- Python `int(v)` on a dynamic value: ints pass through, floats truncate
toward zero, strings are parsed, `None` raises (`none`). -/
def pvToInt : PVal → Option Int
  | .vnull => none
  | .vstr s => pyParseInt s
  | .vnum q => some (pyTrunc q)
  | .vint n => some n

/-! ## Chat field extraction (`demo/backend/routes/chat_routes.py`)

`_extract_fields` scans a message with a fixed set of regular expressions and
assembles a dictionary of found fields.  The regular-expression engine itself
is not embedded: the capture groups its searches produce on a given text are
taken as an input (`RegexCaptures`), universally quantified in the theorems, so
every possible match outcome is covered.  What is embedded is everything the
code does with the captures. -/

/-- `_clean_number` from `_extract_fields` (chat_routes.py lines 31-33): drop
commas, delete every character that is not a digit or a dot, then strip all
trailing dots.  (Python's `\d` matches Unicode decimal digits; the embedding
uses decimal digits `0`-`9`, which is what every claim about the cleaned shape
relies on.) -/
def cleanNumber (s : String) : String :=
  let noComma := s.toList.filter (fun c => c ≠ ',')
  let kept := noComma.filter (fun c => c.isDigit || c = '.')
  ⟨(kept.reverse.dropWhile (fun c => c = '.')).reverse⟩

/-- The capture groups produced by the regular-expression searches of
`_extract_fields` on one message: for each field, the first matched token, when
one of that field's patterns matched. -/
structure RegexCaptures where
  locationTok : Option String := none
  totalSqftTok : Option String := none
  bathTok : Option String := none
  bhkTok : Option String := none

/-- The dictionary returned by `_extract_fields`: each field maps to a string
when found. -/
structure ExtractedFields where
  location : Option String := none
  total_sqft : Option String := none
  bath : Option String := none
  bhk : Option String := none
deriving DecidableEq, Repr

/-- The assembly performed by `_extract_fields` on its numeric capture groups
(chat_routes.py lines 62-92): each captured token, when present, is cleaned
with `_clean_number` and stored under its field name.  The location capture is
stored as matched (its canonicalization is modelled with the chat handler). -/
def extractFieldsOfCaptures (caps : RegexCaptures) : ExtractedFields where
  location := caps.locationTok
  total_sqft := caps.totalSqftTok.map cleanNumber
  bath := caps.bathTok.map cleanNumber
  bhk := caps.bhkTok.map cleanNumber

/-- A string consisting only of decimal digits and dots, not ending in a dot,
and containing no sign character. -/
def isCleanNumeric (s : String) : Bool :=
  s.toList.all (fun c => c.isDigit || c = '.') &&
    s.toList.getLast? ≠ some '.' &&
    s.toList.all (fun c => !(c = '+') && !(c = '-'))

theorem head?_dropWhile_not {p : Char → Bool} :
    ∀ (l : List Char) (c : Char), (l.dropWhile p).head? = some c → p c = false := by
  intro l
  induction l with
  | nil => intro c h; simp [List.dropWhile] at h
  | cons x xs ih =>
    intro c h
    by_cases hx : p x
    · rw [List.dropWhile_cons_of_pos hx] at h
      exact ih c h
    · rw [List.dropWhile_cons_of_neg hx] at h
      simp at h
      simpa [h] using hx

theorem mem_of_dropWhile_mem {p : Char → Bool} :
    ∀ (l : List Char) (a : Char), a ∈ l.dropWhile p → a ∈ l := by
  intro l
  induction l with
  | nil => intro a h; simp [List.dropWhile] at h
  | cons x xs ih =>
    intro a h
    by_cases hx : p x
    · rw [List.dropWhile_cons_of_pos hx] at h
      exact List.mem_cons_of_mem _ (ih a h)
    · rwa [List.dropWhile_cons_of_neg hx] at h

theorem reverse_getLast?_eq_head? (l : List Char) : l.reverse.getLast? = l.head? := by
  cases l with
  | nil => rfl
  | cons x xs => simp

theorem cleanNumber_isCleanNumeric (s : String) : isCleanNumeric (cleanNumber s) = true := by
  have hto : (cleanNumber s).toList
      = (((s.toList.filter (fun c => c ≠ ',')).filter
          (fun c => c.isDigit || c = '.')).reverse.dropWhile (fun c => c = '.')).reverse := rfl
  unfold isCleanNumeric
  rw [hto]
  set kept := (s.toList.filter (fun c => c ≠ ',')).filter (fun c => c.isDigit || c = '.')
    with hk
  have hmem : ∀ c ∈ (kept.reverse.dropWhile (fun c => c = '.')).reverse,
      (c.isDigit || c = '.') = true := by
    intro c hc
    rw [List.mem_reverse] at hc
    have hc' := mem_of_dropWhile_mem _ _ hc
    rw [List.mem_reverse] at hc'
    rw [hk] at hc'
    exact (List.mem_filter.mp hc').2
  simp only [Bool.and_eq_true, List.all_eq_true]
  refine ⟨⟨?_, ?_⟩, ?_⟩
  · intro c hc
    exact hmem c hc
  · rw [reverse_getLast?_eq_head?]
    simp only [decide_eq_true_eq, ne_eq]
    intro hlast
    have := head?_dropWhile_not _ _ hlast
    simp at this
  · intro c hc
    have h2 := hmem c hc
    simp only [Bool.and_eq_true, Bool.not_eq_true', decide_eq_false_iff_not]
    constructor <;> rintro rfl <;> simp at h2

/-- **C10.** For every message (every set of regex capture results), each
numeric field value (`total_sqft`, `bath`, `bhk`) in the dictionary returned by
the chat field extractor is a string of decimal digits and `.` characters with
no trailing `.` and no sign character: every other character of the matched
token is stripped by `_clean_number` before the value is stored. -/
theorem extractFields_numeric_values_clean (caps : RegexCaptures) :
    ((extractFieldsOfCaptures caps).total_sqft.all isCleanNumeric
      ∧ (extractFieldsOfCaptures caps).bath.all isCleanNumeric
      ∧ (extractFieldsOfCaptures caps).bhk.all isCleanNumeric) := by
  refine ⟨?_, ?_, ?_⟩
  · cases h : caps.totalSqftTok <;>
      simp [extractFieldsOfCaptures, h, Option.all, cleanNumber_isCleanNumeric]
  · cases h : caps.bathTok <;>
      simp [extractFieldsOfCaptures, h, Option.all, cleanNumber_isCleanNumeric]
  · cases h : caps.bhkTok <;>
      simp [extractFieldsOfCaptures, h, Option.all, cleanNumber_isCleanNumeric]

/-! ## Location directory service (`demo/backend/services/location_service.py`)

The service persists `{"locations": [{name, count}, ...]}` in a JSON file;
`save_locations` writes the list sorted by count descending, `get_locations`
reads it back, normalizes names, merges duplicates and sorts again.  The file
round trip is modelled as passing the stored entry list. -/

/-- One `{"name": ..., "count": ...}` entry of the location file. -/
structure LocationEntry where
  name : String
  count : Int
deriving DecidableEq, Repr

/-- `LocationService._normalize_name`: split on whitespace (dropping empty
tokens, as Python `str.split()` does), re-join with single spaces, trim. -/
def normalizeName (s : String) : String :=
  ⟨trimWs (List.intercalate [' '] (splitWs s.toList))⟩

/-- Stable insertion of an entry into a count-descending list: the new entry
goes after every earlier entry with a count at least as large.  Mirrors the
stability of Python `sorted(..., reverse=True)`. -/
def insertByCountDesc (x : LocationEntry) : List LocationEntry → List LocationEntry
  | [] => [x]
  | y :: ys => if x.count > y.count then x :: y :: ys else y :: insertByCountDesc x ys

/-- Stable sort by count descending, as `sorted(..., key=count, reverse=True)`. -/
def sortByCountDesc (l : List LocationEntry) : List LocationEntry :=
  l.foldr insertByCountDesc []

/-- `LocationService.save_locations`: the stored list is the input sorted by
count descending. -/
def saveLocations (entries : List LocationEntry) : List LocationEntry :=
  sortByCountDesc entries

/-- Merge one normalized name/count into the ordered-dictionary accumulator of
`get_locations`: an existing entry for the same (case-sensitive) normalized
name keeps its position and takes the maximum count; a new name is appended. -/
def mergeLocation (acc : List LocationEntry) (name : String) (count : Int) :
    List LocationEntry :=
  match acc with
  | [] => [⟨name, count⟩]
  | x :: xs =>
    if x.name = name then ⟨x.name, max x.count count⟩ :: xs
    else x :: mergeLocation xs name count

/-- `LocationService.get_locations` applied to a stored entry list: normalize
each name, drop empty names, merge duplicate normalized names keeping the
maximum count, and sort the merged entries by count descending. -/
def getLocations (stored : List LocationEntry) : List LocationEntry :=
  sortByCountDesc
    (stored.foldl
      (fun acc e =>
        let n := normalizeName e.name
        if n = "" then acc else mergeLocation acc n e.count)
      [])

/-- `LocationService.get_location_names`: the names of `get_locations()`, in
order.  (The `if item.get("name")` guard never drops anything: merged entries
have non-empty names.) -/
def getLocationNames (stored : List LocationEntry) : List String :=
  ((getLocations stored).filter (fun e => e.name ≠ "")).map
    (fun e => normalizeName e.name)

/-- `LocationService.get_lookup`: lowercase-name lookup built by a Python dict
comprehension, in which a later entry overwrites an earlier one with the same
lowercased name — hence the last matching name wins. -/
def locationLookup (stored : List LocationEntry) (key : String) : Option String :=
  ((getLocationNames stored).reverse).find? (fun n => strLower n = key)

/-- `LocationService.canonicalize`: empty input is rejected; otherwise the
normalized, lowercased name is looked up among the known names. -/
def canonicalize (stored : List LocationEntry) (location : String) : Option String :=
  if location = "" then none
  else locationLookup stored (strLower (normalizeName location))

/-- **C4 (counterexample).** Saving `{"whitefield ", 3}` and
`{"Whitefield", 5}` and reading back does *not* merge the two entries:
`_normalize_name` collapses whitespace but preserves case, so the normalized
names `"whitefield"` and `"Whitefield"` stay distinct and `get_locations`
returns two entries, not one. -/
theorem getLocations_case_sensitive_counterexample :
    getLocations (saveLocations [⟨"whitefield ", 3⟩, ⟨"Whitefield", 5⟩]) =
      [⟨"Whitefield", 5⟩, ⟨"whitefield", 3⟩] ∧
    (getLocations (saveLocations [⟨"whitefield ", 3⟩, ⟨"Whitefield", 5⟩])).length ≠ 1 := by
  constructor
  · rfl
  · decide

/-- **C4 (amended).** When the two saved entries' names differ only in
whitespace — `{"Whitefield ", 3}` and `{"Whitefield", 5}` — `get_locations`
returns exactly one entry, named by the normalization rule, with count 5 (the
maximum of the duplicates); names differing in case, as in the original claim,
are kept as separate entries. -/
theorem getLocations_merges_whitespace_duplicates :
    getLocations (saveLocations [⟨"Whitefield ", 3⟩, ⟨"Whitefield", 5⟩]) =
      [⟨"Whitefield", 5⟩] := by
  rfl

/-! ## Model selection (`src/modeling.py`, `ModelTrainer.select_best_model`) -/

/-- `ModelMetrics` from modeling.py: root-mean-square error, mean absolute
percentage error, and an optional 5-fold cross-validated R². -/
structure ModelMetrics where
  rmse : Rat
  mape : Rat
  cv_r2 : Option Rat := none
deriving DecidableEq, Repr

/-- The `score` key of `select_best_model`: the cross-validated R² when
present, otherwise the negated RMSE. -/
def modelScore (m : ModelMetrics) : Rat :=
  match m.cv_r2 with
  | some r => r
  | none => -m.rmse

/-- `ModelTrainer.select_best_model`: Python `max(metrics.keys(), key=score)`
over the insertion-ordered metrics dictionary — the first name achieving the
maximal score (a later candidate replaces the current best only when its score
is strictly greater). -/
def selectBestModel (metrics : List (String × ModelMetrics)) : Option String :=
  match metrics with
  | [] => none
  | first :: rest =>
    some (rest.foldl
      (fun best p => if modelScore p.2 > modelScore best.2 then p else best) first).1

theorem selectBest_foldl_spec :
    ∀ (rest : List (String × ModelMetrics)) (acc : String × ModelMetrics),
      (rest.foldl
          (fun best p => if modelScore p.2 > modelScore best.2 then p else best) acc)
          ∈ acc :: rest
        ∧ modelScore acc.2 ≤
            modelScore (rest.foldl
              (fun best p => if modelScore p.2 > modelScore best.2 then p else best) acc).2
        ∧ ∀ q ∈ rest, modelScore q.2 ≤
            modelScore (rest.foldl
              (fun best p => if modelScore p.2 > modelScore best.2 then p else best) acc).2 := by
  intro rest
  induction rest with
  | nil => intro acc; simp
  | cons x xs ih =>
    intro acc
    simp only [List.foldl_cons]
    by_cases hx : modelScore x.2 > modelScore acc.2
    · rw [if_pos hx]
      rcases ih x with ⟨hmem, hle, hall⟩
      refine ⟨?_, le_trans (le_of_lt hx) hle, ?_⟩
      · rcases List.mem_cons.mp hmem with h | h
        · rw [h]; exact List.mem_cons_of_mem _ (List.mem_cons_self x xs)
        · exact List.mem_cons_of_mem _ (List.mem_cons_of_mem _ h)
      · intro q hq
        rcases List.mem_cons.mp hq with h | h
        · rw [h]; exact hle
        · exact hall q h
    · rw [if_neg hx]
      rcases ih acc with ⟨hmem, hle, hall⟩
      refine ⟨?_, hle, ?_⟩
      · rcases List.mem_cons.mp hmem with h | h
        · rw [h]; exact List.mem_cons_self acc (x :: xs)
        · exact List.mem_cons_of_mem _ (List.mem_cons_of_mem _ h)
      · intro q hq
        rcases List.mem_cons.mp hq with h | h
        · rw [h]; exact le_trans (le_of_not_lt hx) hle
        · exact hall q h

/-- **C5 (counterexample).** The claim's clause "any candidate that has a
`cv_r2` is preferred over any candidate that lacks one" is false: with
`A: cv_r2 = -5` (rmse 1) and `B: no cv_r2, rmse = 2`, the scores are
`-5 < -2`, so `select_best_model` returns `"B"` — the CV-less candidate —
although `A` has a `cv_r2`. -/
theorem selectBestModel_cv_not_always_preferred :
    selectBestModel [("A", ⟨1, 0, some (-5)⟩), ("B", ⟨2, 0, none⟩)] = some "B" ∧
    selectBestModel [("A", ⟨1, 0, some (-5)⟩), ("B", ⟨2, 0, none⟩)] ≠ some "A" ∧
    (⟨1, 0, some (-5)⟩ : ModelMetrics).cv_r2.isSome = true ∧
    (⟨2, 0, none⟩ : ModelMetrics).cv_r2 = none := by
  refine ⟨by decide, by decide, by decide, rfl⟩

/-- **C5 (amended).** For every non-empty metrics map, `select_best_model`
returns the (first) name achieving the maximal score, where a model's score is
its `cv_r2` when present and the negative of its `rmse` otherwise.  Hence
among all-CV candidates the highest `cv_r2` wins and among CV-less candidates
the lowest `rmse` wins, but a CV-scored candidate beats a CV-less one only
when its `cv_r2` is not below the other's negated `rmse`. -/
theorem selectBestModel_max_score (metrics : List (String × ModelMetrics))
    (h : metrics ≠ []) :
    ∃ best ∈ metrics, selectBestModel metrics = some best.1 ∧
      ∀ q ∈ metrics, modelScore q.2 ≤ modelScore best.2 := by
  match metrics, h with
  | first :: rest, _ =>
    rcases selectBest_foldl_spec rest first with ⟨hmem, hle, hall⟩
    refine ⟨_, hmem, rfl, ?_⟩
    intro q hq
    rcases List.mem_cons.mp hq with h | h
    · exact h ▸ hle
    · exact hall q h

/-- Witness for C5: on `{A: cv_r2 = 0.8, B: cv_r2 = 0.75}` the theorem applies
and `select_best_model` indeed returns the maximal-score candidate. -/
theorem selectBestModel_max_score_witness :
    ([("A", ⟨10, 0, some (4/5)⟩), ("B", ⟨8, 0, some (3/4)⟩)] :
        List (String × ModelMetrics)) ≠ [] ∧
    (∃ best ∈ ([("A", ⟨10, 0, some (4/5)⟩), ("B", ⟨8, 0, some (3/4)⟩)] :
        List (String × ModelMetrics)),
      selectBestModel [("A", ⟨10, 0, some (4/5)⟩), ("B", ⟨8, 0, some (3/4)⟩)] =
          some best.1 ∧
        ∀ q ∈ ([("A", ⟨10, 0, some (4/5)⟩), ("B", ⟨8, 0, some (3/4)⟩)] :
            List (String × ModelMetrics)),
          modelScore q.2 ≤ modelScore best.2) :=
  ⟨by decide, selectBestModel_max_score _ (by decide)⟩

/-! ## Local storage layer (`demo/backend/storage/local_storage.py`)

### Reads of the raw JSON files (claim C8)

`_read` parses the whole storage file with `json.loads`, catching only
`JSONDecodeError` and `OSError`.  A file that *is* valid JSON but has the
wrong top-level shape is therefore returned as-is, and the callers operate on
it with `dict.get` / iteration, which raise on the wrong type.  The file is
modelled as either missing, unparsable, or a parsed JSON value. -/

/-- A parsed JSON value. -/
inductive JVal where
  | jnull
  | jbool (b : Bool)
  | jnum (q : Rat)
  | jstr (s : String)
  | jarr (items : List JVal)
  | jobj (fields : List (String × JVal))

/-- The Python exceptions the storage readers can raise on wrongly-shaped
data (neither is caught by `_read`'s `except` clause). -/
inductive PyError where
  | attributeError
  | typeError
deriving DecidableEq, Repr

/-- The state of a JSON storage file. -/
inductive FileState where
  | missing
  | unparsable
  | parsed (v : JVal)

/-- `LocalConversationStore._read`: `{}` when the file is missing or fails to
parse, otherwise whatever JSON value the file holds. -/
def convStoreRead : FileState → JVal
  | .missing => .jobj []
  | .unparsable => .jobj []
  | .parsed v => v

/-- `LocalHouseStore._read`: `[]` when the file is missing or fails to parse,
otherwise whatever JSON value the file holds. -/
def houseStoreRead : FileState → JVal
  | .missing => .jarr []
  | .unparsable => .jarr []
  | .parsed v => v

/-- Python `list(v)` / iteration over a dynamic value: lists yield their
items, strings their one-character substrings, dicts their keys; any other
value raises `TypeError`. -/
def pyIter : JVal → Except PyError (List JVal)
  | .jarr xs => .ok xs
  | .jstr s => .ok (s.toList.map (fun c => .jstr ⟨[c]⟩))
  | .jobj kvs => .ok (kvs.map (fun kv => .jstr kv.1))
  | _ => .error .typeError

/-- `LocalConversationStore.get_history`:
`list(self._read().get(session_id, []))`.  `dict.get` on a non-dict raises
`AttributeError`. -/
def getHistory (file : FileState) (sessionId : String) : Except PyError (List JVal) :=
  match convStoreRead file with
  | .jobj kvs => pyIter ((kvs.lookup sessionId).getD (.jarr []))
  | _ => .error .attributeError

/-- `LocalHouseStore.list_records`: `list(self._read())`. -/
def listRecordsRaw (file : FileState) : Except PyError (List JVal) :=
  pyIter (houseStoreRead file)

/-- The comparison `item.get("session_id") == session_id` on a parsed record:
a stored string equal to the session id; any other stored value (or an absent
key, which `get` maps to `None`) compares unequal. -/
def sessionIdMatches (sessionId : String) (kvs : List (String × JVal)) : Bool :=
  match kvs.lookup "session_id" with
  | some (.jstr s) => s = sessionId
  | _ => false

/-- The loop body of `LocalHouseStore.get_record_by_session`:
`item.get("session_id") == session_id` on each item in turn;
`.get` on a non-dict item raises `AttributeError`. -/
def findSessionRecord (sessionId : String) : List JVal → Except PyError (Option JVal)
  | [] => .ok none
  | x :: xs =>
    match x with
    | .jobj kvs =>
      if sessionIdMatches sessionId kvs then .ok (some (.jobj kvs))
      else findSessionRecord sessionId xs
    | _ => .error .attributeError

/-- `LocalHouseStore.get_record_by_session`: iterate `_read()` and return the
first record whose `session_id` equals the argument. -/
def getRecordBySession (file : FileState) (sessionId : String) :
    Except PyError (Option JVal) :=
  match listRecordsRaw file with
  | .error e => .error e
  | .ok items => findSessionRecord sessionId items

/-- **C8.** The claim that a corrupted or malformed storage file never makes a
read crash is wrong on the code: `_read` only catches parse and OS errors, so
a file that is valid JSON of the wrong top-level shape reaches the callers
untyped and they raise.  Concretely: `conversations.json` containing `[]`
makes `get_history` raise `AttributeError`; `houses.json` containing `[1]`
makes `get_record_by_session` raise `AttributeError`; `houses.json` containing
`5` makes `list_records` raise `TypeError`.  (Unparsable files do degrade to
empty results, as the last three conjuncts record.) -/
theorem storageReads_crash_on_wrong_shape :
    getHistory (.parsed (.jarr [])) "s" = .error .attributeError ∧
    getRecordBySession (.parsed (.jarr [.jnum 1])) "s" = .error .attributeError ∧
    listRecordsRaw (.parsed (.jnum 5)) = .error .typeError ∧
    getHistory .unparsable "s" = .ok [] ∧
    listRecordsRaw .unparsable = .ok [] ∧
    getRecordBySession .unparsable "s" = .ok none :=
  ⟨rfl, rfl, rfl, rfl, rfl, rfl⟩

/-! ### Typed house records and `upsert_session_record` (claim C9)

For the store mutators the records are modelled in their well-formed shape:
a dictionary with the keys `add_record`/`upsert_session_record` write. -/

/-- A `houses.json` record.  `session_id` is `none` for records created by
`add_record`, which does not set the key.  The four data fields hold dynamic
values: the chat path can store raw strings when numeric coercion fails. -/
structure HouseRecord where
  id : String
  session_id : Option String
  location : PVal
  total_sqft : PVal
  bath : PVal
  bhk : PVal
  predicted_price_lakh : PVal
  source : String
deriving DecidableEq, Repr

/-- `_maybe_float` inside `upsert_session_record`: try `float(val)`, keep the
original value when conversion raises. -/
def maybeFloat (v : PVal) : PVal :=
  match pvToFloat v with
  | some q => .vnum q
  | none => v

/-- `_maybe_int` inside `upsert_session_record`: try `int(val)`, keep the
original value when conversion raises. -/
def maybeInt (v : PVal) : PVal :=
  match pvToInt v with
  | some n => .vint n
  | none => v

/-- `LocalHouseStore.add_record`: append a fresh record (no `session_id` key)
and return it.  The fresh uuid is an argument. -/
def addRecord (newId : String) (location : String) (total_sqft : Rat) (bath bhk : Int)
    (predicted_price_lakh : Option Rat) (source : String)
    (store : List HouseRecord) : HouseRecord × List HouseRecord :=
  let record : HouseRecord :=
    { id := newId
      session_id := none
      location := .vstr location
      total_sqft := .vnum total_sqft
      bath := .vint bath
      bhk := .vint bhk
      predicted_price_lakh :=
        match predicted_price_lakh with
        | none => .vnull
        | some q => .vnum q
      source := source }
  (record, store ++ [record])

/-- The update half of `upsert_session_record`: overwrite exactly the fields
whose arguments are present (`is not None`), coercing `total_sqft` with
`_maybe_float` and `bath`/`bhk` with `_maybe_int`, and overwrite `source`
exactly when it is non-empty.  (The source applies these guarded assignments
one after another; each touches a distinct field, so the sequential updates
are written here as one field-wise record.) -/
def updateExistingRecord (r : HouseRecord) (location total_sqft bath bhk : Option PVal)
    (predicted_price_lakh : Option Rat) (source : String) : HouseRecord :=
  { id := r.id
    session_id := r.session_id
    location :=
      match location with
      | some v => v
      | none => r.location
    total_sqft :=
      match total_sqft with
      | some v => maybeFloat v
      | none => r.total_sqft
    bath :=
      match bath with
      | some v => maybeInt v
      | none => r.bath
    bhk :=
      match bhk with
      | some v => maybeInt v
      | none => r.bhk
    predicted_price_lakh :=
      match predicted_price_lakh with
      | some q => .vnum q
      | none => r.predicted_price_lakh
    source := if source ≠ "" then source else r.source }

/-- The fresh record created by `upsert_session_record` when no record matches
the session id. -/
def newSessionRecord (newId sessionId : String)
    (location total_sqft bath bhk : Option PVal)
    (predicted_price_lakh : Option Rat) (source : String) : HouseRecord :=
  { id := newId
    session_id := some sessionId
    location := location.getD .vnull
    total_sqft := (total_sqft.map maybeFloat).getD .vnull
    bath := (bath.map maybeInt).getD .vnull
    bhk := (bhk.map maybeInt).getD .vnull
    predicted_price_lakh :=
      match predicted_price_lakh with
      | none => .vnull
      | some q => .vnum q
    source := source }

/-- `LocalHouseStore.upsert_session_record`: find the first record whose
`session_id` matches; update it in place when found, otherwise append a new
record.  Returns the resulting record and the new store contents. -/
def upsertSessionRecord (newId sessionId : String)
    (location total_sqft bath bhk : Option PVal)
    (predicted_price_lakh : Option Rat) (source : String) :
    List HouseRecord → HouseRecord × List HouseRecord
  | [] =>
    let record := newSessionRecord newId sessionId location total_sqft bath bhk
      predicted_price_lakh source
    (record, [record])
  | r :: rest =>
    if r.session_id = some sessionId then
      let updated := updateExistingRecord r location total_sqft bath bhk
        predicted_price_lakh source
      (updated, updated :: rest)
    else
      let deeper := upsertSessionRecord newId sessionId location total_sqft
        bath bhk predicted_price_lakh source rest
      (deeper.1, r :: deeper.2)

/-- A concrete per-session chat record, used in witnesses. -/
def sessionRecordExample : HouseRecord :=
  ⟨"r1", some "s", .vstr "HSR", .vnum 1000, .vnull, .vint 2, .vnull, "chat"⟩

/-- A concrete session-less api record, used in witnesses. -/
def apiRecordExample : HouseRecord :=
  ⟨"r2", none, .vstr "BTM", .vnum 900, .vint 1, .vint 1, .vnull, "api"⟩

/-- **C9.** When the store holds a record for the session id (the first match
being `r`, after a prefix of non-matching records), `upsert_session_record`
replaces exactly that record: the result store keeps every other record
unchanged in place, the record keeps its `id` and `session_id`, every field
whose argument is absent keeps its value, every supplied field is overwritten
(`total_sqft` through `_maybe_float`, `bath`/`bhk` through `_maybe_int`), and
`source` is overwritten exactly when a non-empty value is supplied. -/
theorem upsertSessionRecord_updates_only_supplied_fields
    (pre post : List HouseRecord) (r : HouseRecord) (newId sessionId : String)
    (location total_sqft bath bhk : Option PVal)
    (predicted_price_lakh : Option Rat) (source : String)
    (hpre : ∀ x ∈ pre, x.session_id ≠ some sessionId)
    (hr : r.session_id = some sessionId) :
    (upsertSessionRecord newId sessionId location total_sqft bath bhk
        predicted_price_lakh source (pre ++ r :: post)).2 =
      pre ++ (upsertSessionRecord newId sessionId location total_sqft bath bhk
        predicted_price_lakh source (pre ++ r :: post)).1 :: post ∧
    ((upsertSessionRecord newId sessionId location total_sqft bath bhk
        predicted_price_lakh source (pre ++ r :: post)).1 =
      updateExistingRecord r location total_sqft bath bhk predicted_price_lakh source) ∧
    (updateExistingRecord r location total_sqft bath bhk
        predicted_price_lakh source).id = r.id ∧
    (updateExistingRecord r location total_sqft bath bhk
        predicted_price_lakh source).session_id = r.session_id ∧
    (location = none → (updateExistingRecord r location total_sqft bath bhk
        predicted_price_lakh source).location = r.location) ∧
    (∀ v, location = some v → (updateExistingRecord r location total_sqft bath bhk
        predicted_price_lakh source).location = v) ∧
    (total_sqft = none → (updateExistingRecord r location total_sqft bath bhk
        predicted_price_lakh source).total_sqft = r.total_sqft) ∧
    (∀ v, total_sqft = some v → (updateExistingRecord r location total_sqft bath bhk
        predicted_price_lakh source).total_sqft = maybeFloat v) ∧
    (bath = none → (updateExistingRecord r location total_sqft bath bhk
        predicted_price_lakh source).bath = r.bath) ∧
    (bhk = none → (updateExistingRecord r location total_sqft bath bhk
        predicted_price_lakh source).bhk = r.bhk) ∧
    (predicted_price_lakh = none →
      (updateExistingRecord r location total_sqft bath bhk
        predicted_price_lakh source).predicted_price_lakh = r.predicted_price_lakh) ∧
    (source ≠ "" → (updateExistingRecord r location total_sqft bath bhk
        predicted_price_lakh source).source = source) ∧
    (source = "" → (updateExistingRecord r location total_sqft bath bhk
        predicted_price_lakh source).source = r.source) := by
  have hsplit : ∀ (pre' : List HouseRecord), (∀ x ∈ pre', x.session_id ≠ some sessionId) →
      upsertSessionRecord newId sessionId location total_sqft bath bhk
          predicted_price_lakh source (pre' ++ r :: post) =
        (updateExistingRecord r location total_sqft bath bhk predicted_price_lakh source,
          pre' ++ updateExistingRecord r location total_sqft bath bhk
            predicted_price_lakh source :: post) := by
    intro pre'
    induction pre' with
    | nil =>
      intro _
      simp [upsertSessionRecord, hr]
    | cons x xs ih =>
      intro hall
      have hx : x.session_id ≠ some sessionId := hall x (List.mem_cons_self x xs)
      have hxs : ∀ y ∈ xs, y.session_id ≠ some sessionId :=
        fun y hy => hall y (List.mem_cons_of_mem x hy)
      simp only [List.cons_append, upsertSessionRecord, if_neg hx, List.append_eq,
        ih hxs]
  have hmain := hsplit pre hpre
  rw [hmain]
  refine ⟨rfl, rfl, rfl, rfl, ?_, ?_, ?_, ?_, ?_, ?_, ?_, ?_, ?_⟩
  · intro h; subst h; rfl
  · intro v h; subst h; rfl
  · intro h; subst h; rfl
  · intro v h; subst h; rfl
  · intro h; subst h; rfl
  · intro h; subst h; rfl
  · intro h; subst h; rfl
  · intro h
    simp [updateExistingRecord, if_pos h]
  · intro h; subst h
    simp [updateExistingRecord]

/-- Witness for C9 at a concrete store: a one-record store for session `"s"`
plus one unrelated record; only `bath` is supplied. -/
theorem upsertSessionRecord_updates_only_supplied_fields_witness :
    (∀ x ∈ ([] : List HouseRecord), x.session_id ≠ some "s") ∧
    sessionRecordExample.session_id = some "s" ∧
    (upsertSessionRecord "fresh" "s" none none (some (.vstr "3")) none none "chat"
        ([] ++ sessionRecordExample :: [apiRecordExample])).2 =
      [] ++ (upsertSessionRecord "fresh" "s" none none (some (.vstr "3")) none none
        "chat" ([] ++ sessionRecordExample :: [apiRecordExample])).1 ::
        [apiRecordExample] :=
  ⟨by simp, rfl,
    (upsertSessionRecord_updates_only_supplied_fields [] [apiRecordExample]
      sessionRecordExample "fresh" "s" none none (some (.vstr "3")) none none "chat"
      (by simp) rfl).1⟩

/-! ## Direct prediction endpoint (`demo/backend/routes/chat_routes.py`,
`predict_house`) -/

/-- The JSON body of `POST /api/house/predict`.  `location` is a string or
absent; the three numeric fields are any JSON value or absent (`none` also
covers an explicit JSON `null`, which `payload.get` returns as `None`). -/
structure PredictPayload where
  location : Option String := none
  total_sqft : Option PVal := none
  bath : Option PVal := none
  bhk : Option PVal := none

/-- The list of missing required fields, in the order `predict_house` checks
them: an absent-or-blank location, then each numeric field that is absent. -/
def missingFields (p : PredictPayload) : List String :=
  (if pyStrip (p.location.getD "") = "" then ["location"] else []) ++
    (if p.total_sqft = none then ["total_sqft"] else []) ++
    (if p.bath = none then ["bath"] else []) ++
    (if p.bhk = none then ["bhk"] else [])

/-- The outcome of one `predict_house` request: HTTP status, error message,
prediction, stored-record id, the house store after the request, and whether
the inference service was invoked. -/
structure PredictHouseResult where
  status : Nat
  errorMsg : Option String
  predictedPriceLakh : Option Rat
  recordId : Option String
  houses : List HouseRecord
  predictCalled : Bool
deriving Repr

/-- `predict_house`: validate presence of the four fields, canonicalize the
location against the location file, coerce the numerics, call the inference
service (a parameter `predictFn`, `.error` covering both a missing artifact
and any other inference failure), and append the record via `add_record`. -/
def predictHouse (locFile : List LocationEntry)
    (predictFn : String → Rat → Int → Int → Except String Rat)
    (newId : String) (houses : List HouseRecord) (p : PredictPayload) :
    PredictHouseResult :=
  let location := pyStrip (p.location.getD "")
  let missing := missingFields p
  if missing ≠ [] then
    { status := 400
      errorMsg := some ("Thiếu trường: " ++ String.intercalate ", " missing)
      predictedPriceLakh := none
      recordId := none
      houses := houses
      predictCalled := false }
  else
    match canonicalize locFile location with
    | none =>
      { status := 400, errorMsg := some "Khu vực không hợp lệ",
        predictedPriceLakh := none, recordId := none, houses := houses,
        predictCalled := false }
    | some canonicalLocation =>
      match pvToFloat ((p.total_sqft).getD .vnull), pvToInt ((p.bath).getD .vnull),
          pvToInt ((p.bhk).getD .vnull) with
      | some totalSqftVal, some bathVal, some bhkVal =>
        (match predictFn canonicalLocation totalSqftVal bathVal bhkVal with
        | .error msg =>
          { status := 500, errorMsg := some msg, predictedPriceLakh := none,
            recordId := none, houses := houses, predictCalled := true }
        | .ok price =>
          let added := addRecord newId canonicalLocation totalSqftVal bathVal bhkVal
            (some price) "api" houses
          { status := 200, errorMsg := none, predictedPriceLakh := some price,
            recordId := some added.1.id, houses := added.2, predictCalled := true })
      | _, _, _ =>
        { status := 400, errorMsg := some "Định dạng số không hợp lệ",
          predictedPriceLakh := none, recordId := none, houses := houses,
          predictCalled := false }

/-- **C7.** Whenever at least one required field is missing, `predict_house`
answers HTTP 400 with an error message listing exactly the missing field names
(each missing field — e.g. an absent `total_sqft` — appears in the list), no
inference call is made, and the house store is left unchanged (no `add_record`
entry). -/
theorem predictHouse_missing_fields (locFile : List LocationEntry)
    (predictFn : String → Rat → Int → Int → Except String Rat)
    (newId : String) (houses : List HouseRecord) (p : PredictPayload)
    (h : missingFields p ≠ []) :
    (predictHouse locFile predictFn newId houses p).status = 400 ∧
    (predictHouse locFile predictFn newId houses p).errorMsg =
      some ("Thiếu trường: " ++ String.intercalate ", " (missingFields p)) ∧
    (predictHouse locFile predictFn newId houses p).predictCalled = false ∧
    (predictHouse locFile predictFn newId houses p).houses = houses ∧
    (pyStrip (p.location.getD "") = "" → "location" ∈ missingFields p) ∧
    (p.total_sqft = none → "total_sqft" ∈ missingFields p) ∧
    (p.bath = none → "bath" ∈ missingFields p) ∧
    (p.bhk = none → "bhk" ∈ missingFields p) := by
  have hres : predictHouse locFile predictFn newId houses p =
      { status := 400
        errorMsg := some ("Thiếu trường: " ++ String.intercalate ", " (missingFields p))
        predictedPriceLakh := none
        recordId := none
        houses := houses
        predictCalled := false } := by
    unfold predictHouse
    rw [if_pos h]
  refine ⟨by rw [hres], by rw [hres], by rw [hres], by rw [hres], ?_, ?_, ?_, ?_⟩
  · intro hl
    unfold missingFields
    rw [if_pos hl]
    simp
  · intro hts
    unfold missingFields
    rw [hts]
    simp
  · intro hb
    unfold missingFields
    rw [hb]
    simp
  · intro hk
    unfold missingFields
    rw [hk]
    simp

/-- Witness for C7: a request with only a location present is rejected with
status 400, the missing fields named, no inference call, no store write. -/
theorem predictHouse_missing_fields_witness :
    missingFields { location := some "HSR" } ≠ [] ∧
    (predictHouse [] (fun _ _ _ _ => .ok 0) "fresh" []
        { location := some "HSR" }).status = 400 ∧
    (predictHouse [] (fun _ _ _ _ => .ok 0) "fresh" []
        { location := some "HSR" }).errorMsg =
      some ("Thiếu trường: " ++ String.intercalate ", "
        (missingFields { location := some "HSR" })) ∧
    (predictHouse [] (fun _ _ _ _ => .ok 0) "fresh" []
        { location := some "HSR" }).predictCalled = false ∧
    (predictHouse [] (fun _ _ _ _ => .ok 0) "fresh" []
        { location := some "HSR" }).houses = [] :=
  have h := predictHouse_missing_fields [] (fun _ _ _ _ => .ok 0) "fresh" []
    { location := some "HSR" } (by decide)
  ⟨by decide, h.1, h.2.1, h.2.2.1, h.2.2.2.1⟩

/-! ## Preprocessing pipeline (`src/preprocessing.py`)

`clean_dataframe` is modelled row-wise on a list of raw records.  The four
always-dropped columns (`area_type`, `availability`, `balcony`, `society`) are
not represented: they are removed before the row-completeness check ever sees
them, so they cannot influence any retained column.  Standard deviations enter
only through the comparison `μ − σ < x < μ + σ`, which is expressed
equivalently (for the population deviation `σ = √v ≥ 0`) as `(x − μ)² < v`,
keeping the embedding in `Rat`. -/

/-- The raw `total_sqft` cell: the CSV column holds strings (possibly range
strings like `"1000-1200"`), while history-derived frames hold numbers. -/
inductive SqftVal where
  | str (s : String)
  | num (q : Rat)
deriving DecidableEq, Repr

/-- One raw input row over the five columns that survive the column drop;
`none` models a missing value (`NaN`). -/
structure RawRow where
  location : Option String := none
  size : Option String := none
  total_sqft : Option SqftVal := none
  bath : Option Rat := none
  price : Option Rat := none
deriving DecidableEq, Repr

/-- A row after `dropna`: every retained column present. -/
structure DroppedRow where
  location : String
  size : String
  total_sqft : SqftVal
  bath : Rat
  price : Rat
deriving DecidableEq, Repr

/-- A fully engineered row of the cleaned frame. -/
structure CleanRow where
  location : String
  size : String
  total_sqft : Rat
  bath : Rat
  price : Rat
  BHK : Int
  price_per_sqft : Rat
deriving DecidableEq, Repr

/-- `_convert_sqft`: a range `"low-high"` (exactly one `-`) averages its two
endpoints; otherwise the whole cell is parsed as a float; numbers pass
through; a failed parse yields `none` (the row is dropped). -/
def convertSqft : SqftVal → Option Rat
  | .num q => some q
  | .str s =>
    match splitOnChar '-' s.toList with
    | [lo, hi] =>
      match pyParseFloat ⟨lo⟩, pyParseFloat ⟨hi⟩ with
      | some l, some h => some (rDiv (rAdd l h) 2)
      | _, _ => none
    | _ => pyParseFloat s

/-- `_bhk_from_size`: the leading token of the `size` text (split on single
spaces) parsed as an integer, `0` when parsing fails. -/
def bhkFromSize (size : String) : Int :=
  (pyParseInt ⟨(splitOnChar ' ' size.toList).headD []⟩).getD 0

/-- `dropna`: keep rows with every retained column present. -/
def dropna (rows : List RawRow) : List DroppedRow :=
  rows.filterMap fun r =>
    match r.location, r.size, r.total_sqft, r.bath, r.price with
    | some loc, some size, some ts, some bath, some price =>
      some ⟨loc, size, ts, bath, price⟩
    | _, _, _, _, _ => none

/-- Lines 60-66 of `clean_dataframe`: derive `BHK` and keep `BHK > 0`, convert
`total_sqft` and drop failed parses, compute
`price_per_sqft = price * 1_000_000 / total_sqft`, strip `location`. -/
def engineerRows (rows : List DroppedRow) : List CleanRow :=
  ((rows.map (fun r => (r, bhkFromSize r.size))).filter (fun p => p.2 > 0)).filterMap
    fun p =>
      match convertSqft p.1.total_sqft with
      | none => none
      | some ts =>
        some
          { location := pyStrip p.1.location
            size := p.1.size
            total_sqft := ts
            bath := p.1.bath
            price := p.1.price
            BHK := p.2
            price_per_sqft := rDiv (rMul p.1.price 1000000) ts }

/-- `_bucket_locations`: a location occurring at most `threshold` times in the
current frame is replaced with `"other"`. -/
def bucketLocations (threshold : Nat) (rows : List CleanRow) : List CleanRow :=
  rows.map fun r =>
    if rows.countP (fun x => x.location = r.location) > threshold then r
    else { r with location := "other" }

/-- Sum of a list of rationals. -/
def ratSum (l : List Rat) : Rat :=
  l.foldl rAdd 0

/-- `np.mean` of a list of rationals. -/
def ratMean (l : List Rat) : Rat :=
  rDiv (ratSum l) ((l.length : Int) : Rat)

/-- The population variance (`np.std` squared) of a list of rationals. -/
def ratVariance (l : List Rat) : Rat :=
  rDiv (ratSum (l.map (fun x => rMul (rSub x (ratMean l)) (rSub x (ratMean l)))))
    ((l.length : Int) : Rat)

/-- Stable ascending insertion of a string into a sorted list. -/
def insertStrAsc (x : String) : List String → List String
  | [] => [x]
  | y :: ys => if x < y then x :: y :: ys else y :: insertStrAsc x ys

/-- Ascending lexicographic sort, as pandas sorts group keys. -/
def sortStringsAsc (l : List String) : List String :=
  l.foldr insertStrAsc []

/-- The distinct locations of a frame in pandas `groupby` order (sorted). -/
def groupKeys (rows : List CleanRow) : List String :=
  sortStringsAsc (rows.map (fun r => r.location)).dedup

/-- `_remove_pps_outliers`: per location group, keep the rows whose
`price_per_sqft` lies strictly within one population standard deviation of
the group mean, re-assembling the groups in key order. -/
def removePpsOutliers (rows : List CleanRow) : List CleanRow :=
  (groupKeys rows).flatMap fun loc =>
    let group := rows.filter (fun r => r.location = loc)
    let pps := group.map (fun r => r.price_per_sqft)
    let μ := ratMean pps
    let v := ratVariance pps
    group.filter (fun r =>
      rMul (rSub r.price_per_sqft μ) (rSub r.price_per_sqft μ) < v)

/-- The drop condition of `_remove_bhk_outliers` for one row: the same
location's `BHK − 1` tier has more than 5 rows and this row's
`price_per_sqft` is below that tier's mean. -/
def bhkOutlier (rows : List CleanRow) (r : CleanRow) : Bool :=
  let smaller := rows.filter (fun x => x.location = r.location && x.BHK = r.BHK - 1)
  smaller.length > 5 &&
    r.price_per_sqft < ratMean (smaller.map (fun x => x.price_per_sqft))

/-- `_remove_bhk_outliers`: drop every flagged row (statistics are computed on
the incoming frame, as in the source, where both loops run over the same
frame). -/
def removeBhkOutliers (rows : List CleanRow) : List CleanRow :=
  rows.filter (fun r => ¬ bhkOutlier rows r)

/-- `BengaluruPreprocessor.clean_dataframe`: the full cleaning pipeline, in
source order. -/
def cleanDataframe (threshold : Nat) (rows : List RawRow) : List CleanRow :=
  let s4 := engineerRows (dropna rows)
  let s5 := bucketLocations threshold s4
  let s6 := s5.filter (fun r => ¬ (rDiv r.total_sqft ((r.BHK : Int) : Rat) < 300))
  let s7 := removePpsOutliers s6
  let s8 := removeBhkOutliers s7
  s8.filter (fun r => r.bath < rAdd ((r.BHK : Int) : Rat) 2)

theorem mem_removePpsOutliers {r : CleanRow} {rows : List CleanRow}
    (h : r ∈ removePpsOutliers rows) : r ∈ rows := by
  unfold removePpsOutliers at h
  rcases List.mem_flatMap.mp h with ⟨loc, _, hmem⟩
  exact List.mem_filter.mp (List.mem_filter.mp hmem).1 |>.1

theorem mem_removeBhkOutliers {r : CleanRow} {rows : List CleanRow}
    (h : r ∈ removeBhkOutliers rows) : r ∈ rows :=
  (List.mem_filter.mp h).1

theorem mem_bucketLocations {r : CleanRow} {threshold : Nat} {rows : List CleanRow}
    (h : r ∈ bucketLocations threshold rows) :
    ∃ r₀ ∈ rows, r.BHK = r₀.BHK ∧ r.total_sqft = r₀.total_sqft ∧ r.bath = r₀.bath := by
  unfold bucketLocations at h
  rcases List.mem_map.mp h with ⟨r₀, hr₀, heq⟩
  refine ⟨r₀, hr₀, ?_⟩
  by_cases hc : rows.countP (fun x => x.location = r₀.location) > threshold
  · rw [if_pos hc] at heq
    rw [← heq]
    exact ⟨rfl, rfl, rfl⟩
  · rw [if_neg hc] at heq
    rw [← heq]
    exact ⟨rfl, rfl, rfl⟩

theorem engineerRows_bhk_pos {r : CleanRow} {rows : List DroppedRow}
    (h : r ∈ engineerRows rows) : 0 < r.BHK := by
  unfold engineerRows at h
  rcases List.mem_filterMap.mp h with ⟨p, hp, heq⟩
  have hpos : p.2 > 0 := by
    have := (List.mem_filter.mp hp).2
    simpa using this
  cases hts : convertSqft p.1.total_sqft with
  | none => rw [hts] at heq; exact absurd heq (by simp)
  | some ts =>
    rw [hts] at heq
    have : r.BHK = p.2 := by
      cases heq
      rfl
    rw [this]
    exact hpos

/-- **C3.** For every input dataset (and every rare-location threshold), every
row of the frame returned by `clean_dataframe` satisfies `BHK > 0`,
`total_sqft / BHK ≥ 300`, and `bath < BHK + 2`. -/
theorem cleanDataframe_row_invariants (threshold : Nat) (rows : List RawRow) :
    ∀ r ∈ cleanDataframe threshold rows,
      0 < r.BHK ∧ 300 ≤ r.total_sqft / (r.BHK : Rat) ∧ r.bath < (r.BHK : Rat) + 2 := by
  intro r hr
  unfold cleanDataframe at hr
  obtain ⟨h8, hbath⟩ := List.mem_filter.mp hr
  have h7 := mem_removeBhkOutliers h8
  have h6 := mem_removePpsOutliers h7
  obtain ⟨h5, h300⟩ := List.mem_filter.mp h6
  obtain ⟨r₀, hr₀, hBHK, _, _⟩ := mem_bucketLocations h5
  refine ⟨?_, ?_, ?_⟩
  · rw [hBHK]
    exact engineerRows_bhk_pos hr₀
  · have h : ¬ (rDiv r.total_sqft ((r.BHK : Int) : Rat) < 300) := by simpa using h300
    rw [rDiv_eq] at h
    exact le_of_not_lt h
  · have h : r.bath < rAdd ((r.BHK : Int) : Rat) 2 := by simpa using hbath
    rwa [rAdd_eq] at h

/-- A three-row concrete dataset whose middle row survives the whole cleaning
pipeline (the outer two are price-per-sqft outliers of the single `"other"`
group). -/
def sampleRawRows : List RawRow :=
  [ { location := some "A", size := some "2 BHK", total_sqft := some (.num 1000),
      bath := some 2, price := some 40 },
    { location := some "A", size := some "2 BHK", total_sqft := some (.num 1000),
      bath := some 2, price := some 45 },
    { location := some "A", size := some "2 BHK", total_sqft := some (.num 1000),
      bath := some 2, price := some 50 } ]

/-- The surviving cleaned row of `sampleRawRows`. -/
def sampleCleanRow : CleanRow :=
  { location := "other", size := "2 BHK", total_sqft := 1000, bath := 2,
    price := 45, BHK := 2, price_per_sqft := 45000 }

/-- Witness for C3: the surviving row of the sample dataset satisfies all
three invariants. -/
theorem cleanDataframe_row_invariants_witness :
    sampleCleanRow ∈ cleanDataframe 10 sampleRawRows ∧
    (0 < sampleCleanRow.BHK ∧
      300 ≤ sampleCleanRow.total_sqft / (sampleCleanRow.BHK : Rat) ∧
      sampleCleanRow.bath < (sampleCleanRow.BHK : Rat) + 2) :=
  ⟨by decide,
    cleanDataframe_row_invariants 10 sampleRawRows sampleCleanRow (by decide)⟩

/-! ## Fitting and inference transform (`src/preprocessing.py`, `src/modeling.py`) -/

/-- The `BengaluruPreprocessor` dataclass state. -/
structure Preprocessor where
  rare_location_threshold : Nat := 10
  location_categories : List String := []
  feature_columns : List String := []
deriving DecidableEq, Repr

/-- A model-ready feature frame: its column names in order, and one list of
numeric cell values per row, in column order. -/
structure FeatureMatrix where
  columns : List String
  rows : List (List Rat)
deriving DecidableEq, Repr

/-- The fitted location category list: the sorted distinct cleaned locations,
excluding the `"other"` bucket. -/
def fitCategories (cleaned : List CleanRow) : List String :=
  sortStringsAsc ((cleaned.map (fun r => r.location)).dedup.filter (fun l => l ≠ "other"))

/-- `BengaluruPreprocessor._build_features`: numeric columns
`total_sqft, bath, BHK` (the frame's residual column order) followed by one
0/1 dummy column per fitted category (the `"other"` dummy is dropped; missing
categories are zero-filled; columns are ordered by the category list), with
the target `price` series. -/
def buildFeatures (cats : List String) (df : List CleanRow) : FeatureMatrix × List Rat :=
  ({ columns := ["total_sqft", "bath", "BHK"] ++ cats
     rows := df.map fun r =>
       [r.total_sqft, r.bath, ((r.BHK : Int) : Rat)] ++
         cats.map (fun c => if r.location = c then (1 : Rat) else 0) },
   df.map fun r => r.price)

/-- Modelled from the spec: `fit_transform_cleaned` is called by
`ModelTrainer.prepare_data` (modeling.py line 131) but absent from
`src/preprocessing.py`; the spec defines it as "same as the back half of
`fit_transform` but accepting an already-cleaned frame": record the sorted
location categories of the cleaned frame (excluding `"other"`), build the
feature matrix, record the feature column order, and return features and
target. -/
def fitTransformCleaned (pre : Preprocessor) (cleaned : List CleanRow) :
    Preprocessor × FeatureMatrix × List Rat :=
  let cats := fitCategories cleaned
  let Xy := buildFeatures cats cleaned
  ({ pre with location_categories := cats, feature_columns := Xy.1.columns },
    Xy.1, Xy.2)

/-- `BengaluruPreprocessor.fit_transform`: clean, record categories, build
features, record the column order. -/
def fitTransform (pre : Preprocessor) (df : List RawRow) :
    Preprocessor × FeatureMatrix × List Rat :=
  let cleaned := cleanDataframe pre.rare_location_threshold df
  let cats := fitCategories cleaned
  let Xy := buildFeatures cats cleaned
  ({ pre with location_categories := cats, feature_columns := Xy.1.columns },
    Xy.1, Xy.2)

/-- The arguments `prepare_data` passes to `sklearn.model_selection.
train_test_split` (the split itself is external library code; what the claim
specifies — and what is recorded here — is the data and parameters of the
call). -/
structure SplitCall where
  X : FeatureMatrix
  y : List Rat
  test_size : Rat
  random_state : Nat
deriving Repr

/-- `ModelTrainer.__init__` configuration, with its default values. -/
structure TrainerConfig where
  test_size : Rat := 1/5
  random_state : Nat := 42
  rare_location_threshold : Nat := 10
deriving Repr

/-- The trainer with all defaults (`ModelTrainer()`). -/
def defaultTrainer : TrainerConfig := {}

/-- The observable outcome of `ModelTrainer.prepare_data`. -/
structure PrepareResult where
  preprocessor : Preprocessor
  history_rows_used : Nat
  last_training_rows : Nat
  split : SplitCall
deriving Repr

/-- `ModelTrainer.prepare_data`: clean the base frame; when a history frame
was loaded and is non-empty, clean it too; concatenate; fit via
`fit_transform_cleaned`; record the row counters; and call `train_test_split`
with the trainer's `test_size` and `random_state`.  (`load_raw` and
`_load_history_training_data` perform file I/O; their outputs — the raw base
frame and the optional history frame — are the arguments here.) -/
def prepareData (t : TrainerConfig) (dfRaw : List RawRow)
    (historyRaw : Option (List RawRow)) : PrepareResult :=
  let pre : Preprocessor := { rare_location_threshold := t.rare_location_threshold }
  let baseClean := cleanDataframe pre.rare_location_threshold dfRaw
  let historyClean :=
    match historyRaw with
    | some h => if h.isEmpty then [] else cleanDataframe pre.rare_location_threshold h
    | none => []
  let combined := baseClean ++ historyClean
  let fitted := fitTransformCleaned pre combined
  { preprocessor := fitted.1
    history_rows_used := historyClean.length
    last_training_rows := fitted.2.2.length
    split :=
      { X := fitted.2.1, y := fitted.2.2, test_size := t.test_size
        random_state := t.random_state } }

/-- **C1.** `fit_transform_cleaned` (modelled from the spec, see its doc
comment) is exactly the back half of `fit_transform`, and for every dataset
and optional history frame, `prepare_data` on a default trainer cleans the
base frame, concatenates the cleaned history rows, fits via
`fit_transform_cleaned` (recording categories and column order in the
preprocessor), and passes the result to `train_test_split` with
`test_size = 0.2` and `random_state = 42`. -/
theorem prepareData_fitTransformCleaned_split (dfRaw : List RawRow)
    (historyRaw : Option (List RawRow)) :
    (prepareData defaultTrainer dfRaw historyRaw).split.test_size = 1/5 ∧
    (prepareData defaultTrainer dfRaw historyRaw).split.random_state = 42 ∧
    (prepareData defaultTrainer dfRaw historyRaw).split.X =
      (fitTransformCleaned { rare_location_threshold := 10 }
        (cleanDataframe 10 dfRaw ++
          (match historyRaw with
            | some h => if h.isEmpty then [] else cleanDataframe 10 h
            | none => []))).2.1 ∧
    (prepareData defaultTrainer dfRaw historyRaw).split.y =
      (fitTransformCleaned { rare_location_threshold := 10 }
        (cleanDataframe 10 dfRaw ++
          (match historyRaw with
            | some h => if h.isEmpty then [] else cleanDataframe 10 h
            | none => []))).2.2 ∧
    (prepareData defaultTrainer dfRaw historyRaw).preprocessor =
      (fitTransformCleaned { rare_location_threshold := 10 }
        (cleanDataframe 10 dfRaw ++
          (match historyRaw with
            | some h => if h.isEmpty then [] else cleanDataframe 10 h
            | none => []))).1 ∧
    (∀ (pre : Preprocessor) (df : List RawRow),
      fitTransform pre df =
        fitTransformCleaned pre (cleanDataframe pre.rare_location_threshold df)) :=
  ⟨rfl, rfl, rfl, rfl, rfl, fun _ _ => rfl⟩

/-- `BengaluruPreprocessor.transform_input`: raise when not fitted; otherwise
build the single-row frame `total_sqft, bath, BHK` plus zero dummies for every
fitted category (1 only for a known, stripped location), then reindex to the
fitted column order filling missing columns with 0.  pandas `reindex` assumes
unique column labels; a label is resolved to its first occurrence (labels are
unique for any fit on data whose location names avoid the three base column
names). -/
def transformInput (pre : Preprocessor) (location : String) (total_sqft : Rat)
    (bath bhk : Int) : Except String (List (String × Rat)) :=
  if pre.feature_columns.isEmpty then
    .error "Preprocessor has not been fit; train before predicting."
  else
    let base : List (String × Rat) :=
      [("total_sqft", total_sqft), ("bath", (bath : Rat)), ("BHK", (bhk : Rat))]
    let dummies := pre.location_categories.map
      (fun c => (c, if pyStrip location = c then (1 : Rat) else 0))
    let frame := base ++ dummies
    .ok (pre.feature_columns.map fun c => (c, ((frame.lookup c).getD 0)))

/-- **C2.** For every fitted preprocessor (non-empty `feature_columns`, with
the benign side condition that no location category collides with one of the
three base feature names — under such a collision pandas `reindex` itself
fails on duplicate labels) and every input whose stripped location is not a
fitted category, `transform_input` returns (without raising) a single feature
row in exactly the fitted column order whose location-dummy columns are all
0. -/
theorem lookup_append_of_none {l₁ l₂ : List (String × Rat)} {a : String}
    (h : l₁.lookup a = none) : (l₁ ++ l₂).lookup a = l₂.lookup a := by
  induction l₁ with
  | nil => simp
  | cons x xs ih =>
    obtain ⟨k, b⟩ := x
    rw [List.lookup_cons] at h
    rw [List.cons_append, List.lookup_cons]
    cases hak : a == k with
    | true => rw [hak] at h; simp at h
    | false => rw [hak] at h; exact ih h

theorem lookup_dummies_of_ne {cats : List String} {loc c : String}
    (hstrip : loc ≠ c) (hmem : c ∈ cats) :
    ((cats.map (fun n => (n, if loc = n then (1 : Rat) else 0))).lookup c) = some 0 := by
  induction cats with
  | nil => simp at hmem
  | cons x xs ih =>
    rw [List.map_cons, List.lookup_cons]
    cases hcx : c == x with
    | true =>
      have hx : c = x := beq_iff_eq.mp hcx
      subst hx
      rw [if_neg hstrip]
    | false =>
      rcases List.mem_cons.mp hmem with h | h
      · exact absurd (beq_iff_eq.mpr h) (by simp [hcx])
      · exact ih h

theorem transformInput_unknown_location_all_zero (pre : Preprocessor)
    (location : String) (total_sqft : Rat) (bath bhk : Int)
    (hfit : pre.feature_columns ≠ [])
    (hloc : pyStrip location ∉ pre.location_categories)
    (hbase : "total_sqft" ∉ pre.location_categories ∧
      "bath" ∉ pre.location_categories ∧ "BHK" ∉ pre.location_categories) :
    ∃ row, transformInput pre location total_sqft bath bhk = .ok row ∧
      row.map Prod.fst = pre.feature_columns ∧
      ∀ p ∈ row, p.1 ∈ pre.location_categories → p.2 = 0 := by
  have hne : pre.feature_columns.isEmpty = false := by
    cases h : pre.feature_columns with
    | nil => exact absurd h hfit
    | cons a l => rfl
  have hres : transformInput pre location total_sqft bath bhk =
      .ok (pre.feature_columns.map fun c =>
        (c, ((([("total_sqft", total_sqft), ("bath", (bath : Rat)),
              ("BHK", (bhk : Rat))] ++
            pre.location_categories.map
              (fun n => (n, if pyStrip location = n then (1 : Rat) else 0))).lookup
                c).getD 0))) := by
    unfold transformInput
    rw [hne]
    rfl
  refine ⟨_, hres, ?_, ?_⟩
  · rw [List.map_map]
    exact List.map_id pre.feature_columns
  · intro p hp hcat
    rcases List.mem_map.mp hp with ⟨c, hc, hpc⟩
    rw [← hpc] at hcat ⊢
    have hcat' : c ∈ pre.location_categories := hcat
    have hc1 : c ≠ "total_sqft" := fun h => hbase.1 (h ▸ hcat')
    have hc2 : c ≠ "bath" := fun h => hbase.2.1 (h ▸ hcat')
    have hc3 : c ≠ "BHK" := fun h => hbase.2.2 (h ▸ hcat')
    have hstrip : pyStrip location ≠ c := fun h => hloc (h ▸ hcat')
    show ((([("total_sqft", total_sqft), ("bath", (bath : Rat)),
        ("BHK", (bhk : Rat))] ++
      pre.location_categories.map
        (fun n => (n, if pyStrip location = n then (1 : Rat) else 0))).lookup c).getD 0)
      = 0
    have hbaseNone :
        (([("total_sqft", total_sqft), ("bath", (bath : Rat)),
          ("BHK", (bhk : Rat))] : List (String × Rat)).lookup c) = none := by
      rw [List.lookup_cons, beq_eq_false_iff_ne.mpr hc1, List.lookup_cons,
        beq_eq_false_iff_ne.mpr hc2, List.lookup_cons, beq_eq_false_iff_ne.mpr hc3]
      rfl
    rw [lookup_append_of_none hbaseNone, lookup_dummies_of_ne hstrip hcat']
    rfl

/-- A preprocessor fitted (via `fit_transform_cleaned`) on a one-row cleaned
frame with location `"HSR Layout"`. -/
def fittedPreExample : Preprocessor :=
  (fitTransformCleaned {}
    [{ location := "HSR Layout", size := "2 BHK", total_sqft := 1000, bath := 2,
       price := 45, BHK := 2, price_per_sqft := 45000 }]).1

/-- Witness for C2: on a concretely fitted preprocessor and the unknown
location `"Unknown Town"`, `transform_input` returns the row in fitted column
order with zero dummies. -/
theorem transformInput_unknown_location_all_zero_witness :
    fittedPreExample.feature_columns ≠ [] ∧
    pyStrip "Unknown Town" ∉ fittedPreExample.location_categories ∧
    ("total_sqft" ∉ fittedPreExample.location_categories ∧
      "bath" ∉ fittedPreExample.location_categories ∧
      "BHK" ∉ fittedPreExample.location_categories) ∧
    (∃ row, transformInput fittedPreExample "Unknown Town" 1000 2 2 = .ok row ∧
      row.map Prod.fst = fittedPreExample.feature_columns ∧
      ∀ p ∈ row, p.1 ∈ fittedPreExample.location_categories → p.2 = 0) :=
  ⟨by decide, by decide, by decide,
    transformInput_unknown_location_all_zero fittedPreExample "Unknown Town" 1000 2 2
      (by decide) (by decide) (by decide)⟩

/-! ## Chat turn handler (`demo/backend/routes/chat_routes.py`, `chat`)

The handler's leaf services are parameters: the two variants of
`_extract_fields` applied to one message (`extractRaw` without and
`extractCanon` with the allow-list), `location_service.detect_in_text`, the
LLM client, and `house_price_service.predict`.  The control flow, the session
and house-store updates, and the response assembly are embedded from the
source.  The response records whether the LLM service was invoked. -/

/-- One `{role, content}` chat message. -/
structure ChatMsg where
  role : String
  content : String
deriving DecidableEq, Repr

/-- The `detected_fields` dictionary: its values start as extracted strings
and become stored dynamic values after synchronization with the house
record.  `vnull` doubles for an absent key (both are `in (None, "")`). -/
structure DetFields where
  location : PVal := .vnull
  total_sqft : PVal := .vnull
  bath : PVal := .vnull
  bhk : PVal := .vnull
deriving DecidableEq, Repr

/-- Python `val in (None, "")` on a detected-field value. -/
def pvalBlank : PVal → Bool
  | .vnull => true
  | .vstr s => s = ""
  | _ => false

/-- An extracted optional string as a detected-field value. -/
def oStr : Option String → PVal
  | none => .vnull
  | some s => .vstr s

/-- Python `dict.update`: the new dictionary's present keys overwrite. -/
def updateFields (old new : ExtractedFields) : ExtractedFields where
  location := new.location <|> old.location
  total_sqft := new.total_sqft <|> old.total_sqft
  bath := new.bath <|> old.bath
  bhk := new.bhk <|> old.bhk

/-- `_merge_fields_from_history`: re-extract every message oldest-to-newest,
latest mention of a field winning. -/
def mergeFieldsFromHistory (extract : String → ExtractedFields)
    (history : List ChatMsg) : ExtractedFields :=
  history.foldl (fun acc msg => updateFields acc (extract msg.content)) {}

/-- `conversation_store.save_history`: replace the session's message list in
place, appending the key when new. -/
def saveHistory (conv : List (String × List ChatMsg)) (sessionId : String)
    (history : List ChatMsg) : List (String × List ChatMsg) :=
  match conv with
  | [] => [(sessionId, history)]
  | (k, v) :: rest =>
    if k = sessionId then (k, history) :: rest
    else (k, v) :: saveHistory rest sessionId history

/-- The fixed Vietnamese unsupported-area reply (chat_routes.py line 166). -/
def unsupportedAreaReply : String :=
  "Mô hình hiện không hỗ trợ khu vực đó. Vui lòng chọn một location hợp lệ trong danh sách."

/-- The fixed invalid-numbers hidden note (chat_routes.py line 194). -/
def invalidNumbersNote : String :=
  "[Thiếu/không hợp lệ] Vui lòng cung cấp số hợp lệ cho total_sqft, bath, bhk để dự đoán."

/-- The missing-fields hidden note (chat_routes.py lines 246-247). -/
def missingNote (missing : List String) : String :=
  "[Thiếu thông tin] Còn thiếu: " ++ String.intercalate ", " missing ++
    ". Hãy hỏi người dùng bổ sung trước khi dự đoán."

/-- The prediction-failure hidden note (chat_routes.py line 239). -/
def predictionErrorNote (exc : String) : String :=
  "[Lỗi dự đoán] Không thể chạy mô hình: " ++ exc

/-- The fixed follow-up user instruction (chat_routes.py line 232). -/
def phrasingInstruction : String :=
  "Hãy báo kết quả dự đoán trên cho người dùng bằng tiếng Việt, kèm giải thích ngắn gọn."

/-- Python `str()` of a detected-field value as interpolated into the result
note.  (The renderings of floats are abridged — no claim depends on the
rendered digits.) -/
def pvalStr : PVal → String
  | .vnull => "None"
  | .vstr s => s
  | .vint n => toString n
  | .vnum q => if q.den = 1 then toString q.num ++ ".0"
      else toString q.num ++ "/" ++ toString q.den

/-- Python `f"{x:.2f}"`, with the rounding mode abridged to half-up — no
claim depends on the rendered digits. -/
def formatTwoDec (q : Rat) : String :=
  let cents : Int := pyTrunc (rAdd (rMul q 100) (mkRat 1 2))
  let a := cents.natAbs
  (if cents < 0 then "-" else "") ++ toString (a / 100) ++ "." ++
    (if a % 100 < 10 then "0" else "") ++ toString (a % 100)

/-- The hidden model-result note (chat_routes.py lines 221-226). -/
def resultNote (det : DetFields) (price : Rat) : String :=
  "[Kết quả mô hình] location=" ++ pvalStr det.location ++
    ", total_sqft=" ++ pvalStr det.total_sqft ++
    ", bath=" ++ pvalStr det.bath ++
    ", bhk=" ++ pvalStr det.bhk ++
    ", giá dự đoán (lakh)=" ++ formatTwoDec price ++ "."

/-- What the branch after the short-circuit produces: the hidden messages for
the LLM, the prediction value, the house store as mutated so far, and the
working field set. -/
structure ChatStepOutcome where
  extraMessages : List ChatMsg
  prediction : Option Rat
  houses : List HouseRecord
  detected : DetFields

/-- The chat response (plus the embedding's bookkeeping: the resulting store
contents and whether the LLM was invoked). -/
structure ChatResponse where
  status : Nat
  reply : Option String
  errorMsg : Option String
  prediction : Option Rat
  conversations : List (String × List ChatMsg)
  houses : List HouseRecord
  history : List ChatMsg
  detected : DetFields
  llmCalled : Bool

/-- The `POST /api/chat` handler, from chat_routes.py lines 114-272. -/
def chatHandler
    (extractRaw extractCanon : String → ExtractedFields)
    (detectInText : String → Option String)
    (llm : List ChatMsg → Except String String)
    (predictFn : PVal → Rat → Int → Int → Except String Rat)
    (newRecordId : String)
    (conv : List (String × List ChatMsg))
    (houses : List HouseRecord)
    (sessionId userMessage : String) : ChatResponse :=
  if userMessage = "" then
    { status := 400, reply := none, errorMsg := some "Thiếu 'message' từ người dùng",
      prediction := none, conversations := conv, houses := houses, history := [],
      detected := {}, llmCalled := false }
  else
    let history0 := ((conv.lookup sessionId).getD []) ++ [⟨"user", userMessage⟩]
    let raw0 := extractRaw userMessage
    let canon0 := extractCanon userMessage
    let inferred : Option String :=
      if strTruthy canon0.location then none
      else
        match detectInText userMessage with
        | some l => if l ≠ "" then some l else none
        | none => none
    let canon1 :=
      match inferred with
      | some l => { canon0 with location := some l }
      | none => canon0
    let raw1 :=
      match inferred with
      | some l => { raw0 with location := some (raw0.location.getD l) }
      | none => raw0
    let merged := mergeFieldsFromHistory extractCanon history0
    let det1 : DetFields :=
      { location := oStr merged.location, total_sqft := oStr merged.total_sqft,
        bath := oStr merged.bath, bhk := oStr merged.bhk }
    let det2 : DetFields :=
      { location :=
          if strTruthy canon1.location then .vstr (canon1.location.getD "")
          else det1.location
        total_sqft :=
          if strTruthy canon1.total_sqft then .vstr (canon1.total_sqft.getD "")
          else det1.total_sqft
        bath :=
          if strTruthy canon1.bath then .vstr (canon1.bath.getD "") else det1.bath
        bhk :=
          if strTruthy canon1.bhk then .vstr (canon1.bhk.getD "") else det1.bhk }
    let existing := houses.find? (fun r => r.session_id == some sessionId)
    let det3 : DetFields :=
      match existing with
      | none => det2
      | some ex =>
        { location :=
            if pvalBlank det2.location && !pvalBlank ex.location then ex.location
            else det2.location
          total_sqft :=
            if pvalBlank det2.total_sqft && !pvalBlank ex.total_sqft then ex.total_sqft
            else det2.total_sqft
          bath :=
            if pvalBlank det2.bath && !pvalBlank ex.bath then ex.bath else det2.bath
          bhk :=
            if pvalBlank det2.bhk && !pvalBlank ex.bhk then ex.bhk else det2.bhk }
    let toArg : PVal → Option PVal := fun v => if v = .vnull then none else some v
    let up1 := upsertSessionRecord newRecordId sessionId (toArg det3.location)
      (toArg det3.total_sqft) (toArg det3.bath) (toArg det3.bhk) none "chat" houses
    let houses1 := up1.2
    let det4 : DetFields :=
      ⟨up1.1.location, up1.1.total_sqft, up1.1.bath, up1.1.bhk⟩
    if strTruthy raw1.location && !strTruthy canon1.location then
      let history1 := history0 ++ [⟨"assistant", unsupportedAreaReply⟩]
      { status := 200, reply := some unsupportedAreaReply, errorMsg := none,
        prediction := none, conversations := saveHistory conv sessionId history1,
        houses := houses1, history := history1, detected := det4, llmCalled := false }
    else
      let missing :=
        (if pvalBlank det4.location then ["location"] else []) ++
          (if pvalBlank det4.total_sqft then ["total_sqft"] else []) ++
          (if pvalBlank det4.bath then ["bath"] else []) ++
          (if pvalBlank det4.bhk then ["bhk"] else [])
      let step : ChatStepOutcome :=
        if missing.isEmpty then
          match pvToFloat det4.total_sqft, pvToInt det4.bath, pvToInt det4.bhk with
          | some tsv, some bathv, some bhkv =>
            (match predictFn det4.location tsv bathv bhkv with
            | .ok price =>
              let up2 := upsertSessionRecord newRecordId sessionId
                (some det4.location) (some (.vnum tsv)) (some (.vint bathv))
                (some (.vint bhkv)) (some price) "chat" houses1
              let det5 : DetFields :=
                ⟨up2.1.location, up2.1.total_sqft, up2.1.bath, up2.1.bhk⟩
              { extraMessages := [⟨"assistant", resultNote det5 price⟩,
                  ⟨"user", phrasingInstruction⟩]
                prediction := some price, houses := up2.2, detected := det5 }
            | .error exc =>
              { extraMessages := [⟨"assistant", predictionErrorNote exc⟩]
                prediction := none, houses := houses1, detected := det4 })
          | _, _, _ =>
            { extraMessages := [⟨"assistant", invalidNumbersNote⟩]
              prediction := none, houses := houses1, detected := det4 }
        else
          { extraMessages := [⟨"assistant", missingNote missing⟩]
            prediction := none, houses := houses1, detected := det4 }
      match llm (history0 ++ step.extraMessages) with
      | .error exc =>
        { status := 500, reply := none,
          errorMsg := some ("Không gọi được LLM: " ++ exc), prediction := none,
          conversations := conv, houses := step.houses, history := history0,
          detected := step.detected, llmCalled := true }
      | .ok reply =>
        let history1 := history0 ++ [⟨"assistant", reply⟩]
        let mergedFinal := mergeFieldsFromHistory extractCanon history1
        { status := 200, reply := some reply, errorMsg := none,
          prediction := step.prediction,
          conversations := saveHistory conv sessionId history1,
          houses := step.houses, history := history1,
          detected := ⟨oStr mergedFinal.location, oStr mergedFinal.total_sqft,
            oStr mergedFinal.bath, oStr mergedFinal.bhk⟩,
          llmCalled := true }

/-- **C6.** For every chat request whose message yields a location token under
raw extraction while canonical extraction finds none and the text-wide
detection fallback also finds none (i.e. the location fails canonicalization
against the allowed list), the handler answers 200 with the fixed Vietnamese
unsupported-area reply, `prediction = none`, persists the user turn plus that
fixed assistant reply to the conversation store, and never invokes the LLM
service. -/
theorem chat_unsupported_location_short_circuit
    (extractRaw extractCanon : String → ExtractedFields)
    (detectInText : String → Option String)
    (llm : List ChatMsg → Except String String)
    (predictFn : PVal → Rat → Int → Int → Except String Rat)
    (newRecordId : String) (conv : List (String × List ChatMsg))
    (houses : List HouseRecord) (sessionId userMessage : String)
    (hmsg : userMessage ≠ "")
    (hraw : strTruthy (extractRaw userMessage).location = true)
    (hcanon : strTruthy (extractCanon userMessage).location = false)
    (hdetect : detectInText userMessage = none) :
    (chatHandler extractRaw extractCanon detectInText llm predictFn newRecordId
        conv houses sessionId userMessage).status = 200 ∧
    (chatHandler extractRaw extractCanon detectInText llm predictFn newRecordId
        conv houses sessionId userMessage).reply = some unsupportedAreaReply ∧
    (chatHandler extractRaw extractCanon detectInText llm predictFn newRecordId
        conv houses sessionId userMessage).prediction = none ∧
    (chatHandler extractRaw extractCanon detectInText llm predictFn newRecordId
        conv houses sessionId userMessage).llmCalled = false ∧
    (chatHandler extractRaw extractCanon detectInText llm predictFn newRecordId
        conv houses sessionId userMessage).conversations =
      saveHistory conv sessionId (((conv.lookup sessionId).getD []) ++
        [⟨"user", userMessage⟩, ⟨"assistant", unsupportedAreaReply⟩]) := by
  simp only [chatHandler, if_neg hmsg, hcanon, hdetect, hraw]
  simp [hcanon, hraw, hdetect, List.append_assoc]

/-- A raw extractor that finds a location token, for the C6 witness. -/
def rawExtractorExample : String → ExtractedFields :=
  fun _ => { location := some "Nowhere" }

/-- A canonical extractor that finds nothing, for the C6 witness. -/
def canonExtractorExample : String → ExtractedFields :=
  fun _ => {}

/-- Witness for C6 at concrete stores and services: the short-circuit fires,
the fixed reply is persisted, and the LLM is never invoked. -/
theorem chat_unsupported_location_short_circuit_witness :
    ("tại Nowhere" : String) ≠ "" ∧
    strTruthy (rawExtractorExample "tại Nowhere").location = true ∧
    strTruthy (canonExtractorExample "tại Nowhere").location = false ∧
    (fun _ => (none : Option String)) "tại Nowhere" = none ∧
    ((chatHandler rawExtractorExample canonExtractorExample (fun _ => none)
        (fun _ => .ok "xin chào") (fun _ _ _ _ => .ok 0) "fresh" [] [] "sess1"
        "tại Nowhere").status = 200 ∧
      (chatHandler rawExtractorExample canonExtractorExample (fun _ => none)
        (fun _ => .ok "xin chào") (fun _ _ _ _ => .ok 0) "fresh" [] [] "sess1"
        "tại Nowhere").reply = some unsupportedAreaReply ∧
      (chatHandler rawExtractorExample canonExtractorExample (fun _ => none)
        (fun _ => .ok "xin chào") (fun _ _ _ _ => .ok 0) "fresh" [] [] "sess1"
        "tại Nowhere").prediction = none ∧
      (chatHandler rawExtractorExample canonExtractorExample (fun _ => none)
        (fun _ => .ok "xin chào") (fun _ _ _ _ => .ok 0) "fresh" [] [] "sess1"
        "tại Nowhere").llmCalled = false ∧
      (chatHandler rawExtractorExample canonExtractorExample (fun _ => none)
        (fun _ => .ok "xin chào") (fun _ _ _ _ => .ok 0) "fresh" [] [] "sess1"
        "tại Nowhere").conversations =
        saveHistory [] "sess1"
          ((([] : List (String × List ChatMsg)).lookup "sess1").getD [] ++
            [⟨"user", "tại Nowhere"⟩, ⟨"assistant", unsupportedAreaReply⟩])) :=
  ⟨by decide, by decide, by decide, rfl,
    chat_unsupported_location_short_circuit rawExtractorExample canonExtractorExample
      (fun _ => none) (fun _ => .ok "xin chào") (fun _ _ _ _ => .ok 0) "fresh" [] []
      "sess1" "tại Nowhere" (by decide) (by decide) (by decide) rfl⟩

end Bengaluru
